import Mathlib

/-!
Shallow embedding of the key-rotation system (lifecycle engine in
`key-rotator.js` and key store in `key-store-kv.js`).

Timestamps are epoch milliseconds, modelled as `Nat`.  Nullable timestamp
fields become `Option Nat`.  The cryptographically random outputs
(`generateKeyId`, `generateRandomString`) and the SHA-256 digest are
abstracted as explicit parameters: the JS functions are deterministic in
everything else.  Fallible operations return `Except KeyErr`.
-/

namespace KeyRotator

/-- Errors thrown by the engine and store, one constructor per distinct
`throw new Error(...)` site relevant to the modelled operations. -/
inductive KeyErr where
  /-- `Invalid prefix: ...` from `generateKey`. -/
  | invalidPrefix : KeyErr
  /-- `Invalid environment: ...` from `generateKey`. -/
  | invalidEnvironment : KeyErr
  /-- `Invalid createdBy: ...` from `createSigningKey`. -/
  | invalidCreatedBy : KeyErr
  /-- `Key already deprecated` from `deprecateSigningKey`. -/
  | alreadyDeprecated : KeyErr
  /-- `Cannot deprecate destroyed key` from `deprecateSigningKey`. -/
  | alreadyDestroyed : KeyErr
  /-- `Cannot rotate destroyed key` from `rotateSigningKey`. -/
  | cannotRotateDestroyed : KeyErr
  /-- `Invalid SigningKey: missing keyId or hash` from the store. -/
  | invalidSigningKey : KeyErr
  /-- `KV namespace is required` from every store operation. -/
  | storeUnavailable : KeyErr
deriving Repr, DecidableEq

/-- The spec's `InvalidArgument` taxonomy class: bad enum values rejected
at creation time. -/
def KeyErr.isInvalidArgument : KeyErr → Bool
  | .invalidPrefix => true
  | .invalidEnvironment => true
  | .invalidCreatedBy => true
  | _ => false

/-- `rotationPolicy: { ttlMs, overlapMs }`. -/
structure RotationPolicy where
  ttlMs : Nat
  overlapMs : Nat
deriving Repr, DecidableEq

/-- `metadata: { merchantId, environment, createdBy }`. -/
structure KeyMetadata where
  merchantId : Option String
  environment : String
  createdBy : String
deriving Repr, DecidableEq

/-- The `SigningKey` record (see the module contract typedef). -/
structure SigningKey where
  keyId : String
  hash : String
  createdAt : Nat
  expiresAt : Nat
  deprecatedAt : Option Nat
  destroyedAt : Option Nat
  rotationPolicy : RotationPolicy
  metadata : KeyMetadata
deriving Repr, DecidableEq

/-- `VALID_PREFIXES = ['sk', 'pk', 'ak', 'tk']`. -/
def VALID_PREFIXES : List String := ["sk", "pk", "ak", "tk"]

/-- `VALID_ENVIRONMENTS = ['live', 'test', 'dev', 'staging']`. -/
def VALID_ENVIRONMENTS : List String := ["live", "test", "dev", "staging"]

/-- `VALID_CREATED_BY = ['system', 'auto-rotation', 'user']`. -/
def VALID_CREATED_BY : List String := ["system", "auto-rotation", "user"]

/-- `DEFAULT_TTL_MS = 30 * 24 * 60 * 60 * 1000`. -/
def DEFAULT_TTL_MS : Nat := 30 * 24 * 60 * 60 * 1000

/-- `DEFAULT_OVERLAP_MS = 24 * 60 * 60 * 1000`. -/
def DEFAULT_OVERLAP_MS : Nat := 24 * 60 * 60 * 1000

/-- `MIN_OVERLAP_MS = 5 * 60 * 1000`. -/
def MIN_OVERLAP_MS : Nat := 5 * 60 * 1000

/-- `MAX_OVERLAP_MS = 7 * 24 * 60 * 60 * 1000`. -/
def MAX_OVERLAP_MS : Nat := 7 * 24 * 60 * 60 * 1000

/-- JS `String.prototype.toLowerCase()` for the ASCII strings this
module handles: lowercase each character. -/
def jsToLowerCase (s : String) : String := ⟨s.data.map Char.toLower⟩

/-- `Math.round(a / b)` for natural `a` and positive natural `b`:
round-half-up division. -/
def jsRound (a b : Nat) : Nat := (2 * a + b) / (2 * b)

/-- `formatDuration(ms)`: human-readable duration string. -/
def formatDuration (ms : Nat) : String :=
  if ms < 60000 then toString (jsRound ms 1000) ++ "s"
  else if ms < 3600000 then toString (jsRound ms 60000) ++ "m"
  else if ms ≤ 86400000 then toString (jsRound ms 3600000) ++ "h"
  else toString (jsRound ms 86400000) ++ "d"

/-- `clampOverlap(overlapMs)`: clamp the grace period to
`[MIN_OVERLAP_MS, MAX_OVERLAP_MS]`. -/
def clampOverlap (overlapMs : Nat) : Nat :=
  if overlapMs < MIN_OVERLAP_MS then MIN_OVERLAP_MS
  else if overlapMs > MAX_OVERLAP_MS then MAX_OVERLAP_MS
  else overlapMs

/-- `generateKey(prefix, environment)`, with the CSPRNG output
`randomPart` passed in explicitly.  Normalises `prefix` and
`environment` with `toLowerCase()` before validating, and builds the
plaintext key from the normalised parts. -/
def generateKey (pre environment randomPart : String) : Except KeyErr String :=
  let normalizedPrefix := jsToLowerCase pre
  if ¬ VALID_PREFIXES.contains normalizedPrefix then .error .invalidPrefix
  else
    let normalizedEnv := jsToLowerCase environment
    if ¬ VALID_ENVIRONMENTS.contains normalizedEnv then .error .invalidEnvironment
    else .ok (normalizedPrefix ++ "_" ++ normalizedEnv ++ "_" ++ randomPart)

/-- The options object of `createSigningKey`, with the JS destructuring
defaults. -/
structure CreateOptions where
  pre : String := "sk"
  environment : String := "live"
  merchantId : Option String := none
  createdBy : String := "system"
  ttlMs : Nat := DEFAULT_TTL_MS
  overlapMs : Nat := DEFAULT_OVERLAP_MS
deriving Repr, DecidableEq

/-- `createSigningKey(options)`.  `keyId` stands for the
`generateKeyId()` output, `hash` for `hashKey(plaintextKey)`,
`randomPart` for the CSPRNG string, `now` for `Date.now()`.  Returns the
record together with the one-time plaintext key. -/
def createSigningKey (options : CreateOptions) (keyId hash randomPart : String)
    (now : Nat) : Except KeyErr (SigningKey × String) :=
  if ¬ VALID_CREATED_BY.contains options.createdBy then .error .invalidCreatedBy
  else
    match generateKey options.pre options.environment randomPart with
    | .error e => .error e
    | .ok plaintextKey =>
      .ok
        ({ keyId := keyId
           hash := hash
           createdAt := now
           expiresAt := now + options.ttlMs
           deprecatedAt := none
           destroyedAt := none
           rotationPolicy :=
            { ttlMs := options.ttlMs, overlapMs := clampOverlap options.overlapMs }
           metadata :=
            { merchantId := options.merchantId
              environment := options.environment
              createdBy := options.createdBy } },
         plaintextKey)

/-- `deprecateSigningKey(signingKey)` at time `now`. -/
def deprecateSigningKey (signingKey : SigningKey) (now : Nat) :
    Except KeyErr SigningKey :=
  if signingKey.deprecatedAt.isSome then .error .alreadyDeprecated
  else if signingKey.destroyedAt.isSome then .error .alreadyDestroyed
  else .ok { signingKey with deprecatedAt := some now }

/-- `destroySigningKey(signingKey)` at time `now`.  `deprecatedAt || now`
keeps an already-set deprecation time and backfills `now` otherwise. -/
def destroySigningKey (signingKey : SigningKey) (now : Nat) : SigningKey :=
  if signingKey.destroyedAt.isSome then signingKey
  else
    { signingKey with
      deprecatedAt := some (signingKey.deprecatedAt.getD now)
      destroyedAt := some now }

/-- Result shape of `isSigningKeyValid`. -/
structure ValidityResult where
  valid : Bool
  status : String
  reason : Option String
  remainingMs : Option Nat
deriving Repr, DecidableEq

/-- `isSigningKeyValid(signingKey, now)`. -/
def isSigningKeyValid (signingKey : SigningKey) (now : Nat) : ValidityResult :=
  if signingKey.destroyedAt.isSome then
    { valid := false, status := "destroyed"
      reason := some "Key has been destroyed", remainingMs := some 0 }
  else
    match signingKey.deprecatedAt with
    | some deprecatedAt =>
      let overlapEndsAt := deprecatedAt + signingKey.rotationPolicy.overlapMs
      if now ≥ overlapEndsAt then
        { valid := false, status := "destroyed"
          reason := some "Overlap period has ended", remainingMs := some 0 }
      else
        { valid := true, status := "deprecated"
          reason := some ("Deprecated - " ++ formatDuration (overlapEndsAt - now)
            ++ " remaining in overlap")
          remainingMs := some (overlapEndsAt - now) }
    | none =>
      if now ≥ signingKey.expiresAt then
        { valid := true, status := "active"
          reason := some ("Key past TTL by " ++ formatDuration (now - signingKey.expiresAt)
            ++ " - rotation recommended")
          remainingMs := none }
      else
        { valid := true, status := "active", reason := none
          remainingMs := some (signingKey.expiresAt - now) }

/-- `getSigningKeyStatus(signingKey)`. -/
def getSigningKeyStatus (signingKey : SigningKey) : String :=
  if signingKey.destroyedAt.isSome then "destroyed"
  else if signingKey.deprecatedAt.isSome then "deprecated"
  else "active"

/-- `needsRotation(signingKey, now)`. -/
def needsRotation (signingKey : SigningKey) (now : Nat) : Bool :=
  if signingKey.destroyedAt.isSome ∨ signingKey.deprecatedAt.isSome then false
  else decide (now ≥ signingKey.expiresAt)

/-- The options object of `rotateSigningKey`; `none` models an absent
(`undefined`) field. -/
structure RotateOptions where
  environment : Option String := none
  merchantId : Option String := none
  createdBy : Option String := none
  ttlMs : Option Nat := none
  overlapMs : Option Nat := none
deriving Repr, DecidableEq

/-- JS `a || b` for an optional string `a`: the empty string is falsy. -/
def orFalsyS (o : Option String) (fallback : String) : String :=
  match o with
  | some s => if s = "" then fallback else s
  | none => fallback

/-- JS `a || b` for an optional number `a`: `0` is falsy. -/
def orFalsyN (o : Option Nat) (fallback : Nat) : Nat :=
  match o with
  | some n => if n = 0 then fallback else n
  | none => fallback

/-- JS `a ?? b` for an optional value: only absent/null falls back. -/
def orNullish (o : Option String) (fallback : Option String) : Option String :=
  match o with
  | some s => some s
  | none => fallback

/-- `rotateSigningKey(currentKey, options)`.  `newKeyId`, `newHash` and
`newRandom` stand for the fresh generated values inside the nested
`createSigningKey` call; `now` for `Date.now()`.  Returns
`(oldKey, newKey)` with the one-time plaintext of the new key. -/
def rotateSigningKey (currentKey : SigningKey) (options : RotateOptions)
    (newKeyId newHash newRandom : String) (now : Nat) :
    Except KeyErr ((SigningKey × SigningKey) × String) :=
  if currentKey.destroyedAt.isSome then .error .cannotRotateDestroyed
  else
    match
      (if currentKey.deprecatedAt.isSome then .ok currentKey
       else deprecateSigningKey currentKey now) with
    | .error e => .error e
    | .ok oldKey =>
      match
        createSigningKey
          { environment := orFalsyS options.environment currentKey.metadata.environment
            merchantId := orNullish options.merchantId currentKey.metadata.merchantId
            createdBy := orFalsyS options.createdBy "auto-rotation"
            ttlMs := orFalsyN options.ttlMs currentKey.rotationPolicy.ttlMs
            overlapMs := orFalsyN options.overlapMs currentKey.rotationPolicy.overlapMs }
          newKeyId newHash newRandom now with
      | .error e => .error e
      | .ok (newKey, plaintextKey) => .ok ((oldKey, newKey), plaintextKey)

end KeyRotator

namespace KeyStore

open KeyRotator

/-- A value stored in the KV namespace: either a JSON-serialized
`SigningKey` or a JSON array of keyId strings (the merchant list).  JSON
serialization round-trips, so it is modelled as the identity. -/
inductive KVVal where
  | record (signingKey : SigningKey) : KVVal
  | ids (keyIds : List String) : KVVal
deriving Repr, DecidableEq

/-- The Cloudflare KV namespace, abstracted to its `get`/`put`/`delete`
semantics: a map from string keys to stored values. -/
def KVStore := String → Option KVVal

/-- The empty KV namespace. -/
def kvEmpty : KVStore := fun _ => none

/-- `KV.get(key)`. -/
def kvGet (store : KVStore) (key : String) : Option KVVal := store key

/-- `KV.put(key, value)`. -/
def kvPut (store : KVStore) (key : String) (value : KVVal) : KVStore :=
  fun k => if k = key then some value else store k

/-- `KV.delete(key)`. -/
def kvDelete (store : KVStore) (key : String) : KVStore :=
  fun k => if k = key then none else store k

/-- `hashKeyPattern(hash)`. -/
def hashKeyPattern (hash : String) : String := "hash:" ++ hash

/-- `keyIdPattern(keyId)`. -/
def keyIdPattern (keyId : String) : String := "key:" ++ keyId

/-- `merchantKeysPattern(merchantId)`: `merchantId || '_global'` treats
null and the empty string as absent. -/
def merchantKeysPattern (merchantId : Option String) : String :=
  "merchant:" ++ (match merchantId with
    | some m => if m = "" then "_global" else m
    | none => "_global") ++ ":keys"

/-- Read the merchant list at a KV key as JS does:
`KV.get(k, json) || []`. -/
def getIdList (store : KVStore) (key : String) : List String :=
  match kvGet store key with
  | some (.ids l) => l
  | _ => []

/-- `storeKey(KV, signingKey)`: writes the hash index and id index, then
appends the keyId to the merchant list when not already present.
`Option KVStore` models the possibly missing namespace; returns the
updated namespace. -/
def storeKey (kv : Option KVStore) (signingKey : SigningKey) :
    Except KeyErr KVStore :=
  match kv with
  | none => .error .storeUnavailable
  | some store =>
    if signingKey.keyId = "" ∨ signingKey.hash = "" then .error .invalidSigningKey
    else
      let store1 := kvPut store (hashKeyPattern signingKey.hash) (.record signingKey)
      let store2 := kvPut store1 (keyIdPattern signingKey.keyId) (.record signingKey)
      let merchantKey := merchantKeysPattern signingKey.metadata.merchantId
      let existingList := getIdList store2 merchantKey
      if signingKey.keyId ∈ existingList then .ok store2
      else .ok (kvPut store2 merchantKey (.ids (existingList ++ [signingKey.keyId])))

/-- `updateKey(KV, signingKey)`: rewrites both direct indexes, never the
merchant list. -/
def updateKey (kv : Option KVStore) (signingKey : SigningKey) :
    Except KeyErr KVStore :=
  match kv with
  | none => .error .storeUnavailable
  | some store =>
    if signingKey.keyId = "" ∨ signingKey.hash = "" then .error .invalidSigningKey
    else .ok (kvPut (kvPut store (hashKeyPattern signingKey.hash) (.record signingKey))
      (keyIdPattern signingKey.keyId) (.record signingKey))

/-- The storage-level read behind `lookupByHash`, after the guards. -/
def lookupByHashPure (store : KVStore) (hash : String) : Option SigningKey :=
  match kvGet store (hashKeyPattern hash) with
  | some (.record signingKey) => some signingKey
  | _ => none

/-- `lookupByHash(KV, hash)`. -/
def lookupByHash (kv : Option KVStore) (hash : String) :
    Except KeyErr (Option SigningKey) :=
  match kv with
  | none => .error .storeUnavailable
  | some store =>
    if hash = "" then .ok none
    else .ok (lookupByHashPure store hash)

/-- The storage-level read behind `lookupByKeyId`, after the guards. -/
def lookupByKeyIdPure (store : KVStore) (keyId : String) : Option SigningKey :=
  match kvGet store (keyIdPattern keyId) with
  | some (.record signingKey) => some signingKey
  | _ => none

/-- `lookupByKeyId(KV, keyId)`. -/
def lookupByKeyId (kv : Option KVStore) (keyId : String) :
    Except KeyErr (Option SigningKey) :=
  match kv with
  | none => .error .storeUnavailable
  | some store =>
    if keyId = "" then .ok none
    else .ok (lookupByKeyIdPure store keyId)

/-- The pure core of `lookupByPlaintext`: guard on a falsy plaintext,
digest with the abstract hash function `hashFn`, delegate to the hash
lookup (including its own falsy-hash guard). -/
def lookupByPlaintextPure (store : KVStore) (hashFn : String → String)
    (plaintextKey : String) : Option SigningKey :=
  if plaintextKey = "" then none
  else if hashFn plaintextKey = "" then none
  else lookupByHashPure store (hashFn plaintextKey)

/-- `lookupByPlaintext(KV, plaintextKey)`: digests the plaintext with the
abstract hash function `hashFn` and delegates to the hash lookup.  A
falsy plaintext returns null. -/
def lookupByPlaintext (kv : Option KVStore) (hashFn : String → String)
    (plaintextKey : String) : Except KeyErr (Option SigningKey) :=
  match kv with
  | none => .error .storeUnavailable
  | some store => .ok (lookupByPlaintextPure store hashFn plaintextKey)

/-- `listMerchantKeyIds(KV, merchantId)`. -/
def listMerchantKeyIds (kv : Option KVStore) (merchantId : Option String) :
    Except KeyErr (List String) :=
  match kv with
  | none => .error .storeUnavailable
  | some store => .ok (getIdList store (merchantKeysPattern merchantId))

/-- The pure core of `listMerchantKeys`: resolve each listed keyId and
drop the ones whose record no longer exists. -/
def listMerchantKeysPure (store : KVStore) (merchantId : Option String) :
    List SigningKey :=
  ((getIdList store (merchantKeysPattern merchantId)).map
    (fun keyId => if keyId = "" then none else lookupByKeyIdPure store keyId)).reduceOption

/-- `listMerchantKeys(KV, merchantId)`. -/
def listMerchantKeys (kv : Option KVStore) (merchantId : Option String) :
    Except KeyErr (List SigningKey) :=
  match kv with
  | none => .error .storeUnavailable
  | some store => .ok (listMerchantKeysPure store merchantId)

/-- `deleteKey(KV, keyId)`: looks the record up by id first, removes the
hash entry, the id entry and the keyId from the merchant list, dropping
the merchant list entirely when it becomes empty.  Returns the updated
namespace and the boolean result. -/
def deleteKey (kv : Option KVStore) (keyId : String) :
    Except KeyErr (KVStore × Bool) :=
  match kv with
  | none => .error .storeUnavailable
  | some store =>
    if keyId = "" then .ok (store, false)
    else
      match lookupByKeyIdPure store keyId with
      | none => .ok (store, false)
      | some signingKey =>
        let merchantId := signingKey.metadata.merchantId
        let store1 := kvDelete store (hashKeyPattern signingKey.hash)
        let store2 := kvDelete store1 (keyIdPattern keyId)
        let merchantKey := merchantKeysPattern merchantId
        let existingList := getIdList store2 merchantKey
        let newList := existingList.filter (fun id => id ≠ keyId)
        if newList.length > 0 then
          .ok (kvPut store2 merchantKey (.ids newList), true)
        else
          .ok (kvDelete store2 merchantKey, true)

/-- Result shape of `validateKey`; fields absent from a JS early return
are `none`. -/
structure AuthResult where
  valid : Bool
  error : Option String := none
  found : Option Bool := none
  keyId : Option String := none
  status : Option String := none
  merchantId : Option String := none
  environment : Option String := none
  isDeprecated : Option Bool := none
  remainingMs : Option Nat := none
  reason : Option String := none
deriving Repr, DecidableEq

/-- JS `x || null` for a nullable string: the empty string becomes null. -/
def orNullS (o : Option String) : Option String :=
  match o with
  | some s => if s = "" then none else some s
  | none => none

/-- `validateKey(KV, plaintextKey)`: lookup by plaintext composed with
validity and status evaluation, at time `now`. -/
def validateKey (kv : Option KVStore) (hashFn : String → String)
    (plaintextKey : String) (now : Nat) : AuthResult :=
  match kv with
  | none => { valid := false, error := some "KV namespace not configured" }
  | some store =>
    if plaintextKey = "" then { valid := false, error := some "No key provided" }
    else
      match lookupByPlaintextPure store hashFn plaintextKey with
      | none => { valid := false, error := some "Key not found", found := some false }
      | some signingKey =>
        let validity := isSigningKeyValid signingKey now
        { valid := validity.valid
          found := some true
          keyId := some signingKey.keyId
          status := some (getSigningKeyStatus signingKey)
          merchantId := orNullS signingKey.metadata.merchantId
          environment := orNullS (some signingKey.metadata.environment)
          isDeprecated := some signingKey.deprecatedAt.isSome
          remainingMs := validity.remainingMs
          reason := validity.reason }

end KeyStore

namespace KeyRotator

/-- An overlap value already inside the clamp range is left unchanged. -/
theorem clampOverlap_eq_self (x : Nat) (h1 : MIN_OVERLAP_MS ≤ x)
    (h2 : x ≤ MAX_OVERLAP_MS) : clampOverlap x = x := by
  unfold clampOverlap
  rw [if_neg (by omega), if_neg (by omega)]

end KeyRotator

namespace KeyStore

/-- Reading back the key just written. -/
theorem kvGet_put_same (store : KVStore) (k : String) (v : KVVal) :
    kvGet (kvPut store k v) k = some v := by
  simp [kvGet, kvPut]

/-- A write leaves other keys untouched. -/
theorem kvGet_put_other (store : KVStore) (k : String) (v : KVVal)
    (k' : String) (h : k' ≠ k) : kvGet (kvPut store k v) k' = kvGet store k' := by
  simp [kvGet, kvPut, h]

/-- A deleted key reads back as absent. -/
theorem kvGet_delete_same (store : KVStore) (k : String) :
    kvGet (kvDelete store k) k = none := by
  simp [kvGet, kvDelete]

/-- A delete leaves other keys untouched. -/
theorem kvGet_delete_other (store : KVStore) (k : String) (k' : String)
    (h : k' ≠ k) : kvGet (kvDelete store k) k' = kvGet store k' := by
  simp [kvGet, kvDelete, h]

/-- Any string sandwiched between the merchant-list prefix and suffix
yields a KV key starting with `m`. -/
theorem merchant_sandwich_head (t : String) :
    (("merchant:" ++ t) ++ ":keys").data.head? = some 'm' := rfl

/-- Every merchant-list KV key starts with the letter of its prefix. -/
theorem merchantKeysPattern_head (m : Option String) :
    (merchantKeysPattern m).data.head? = some 'm' := by
  unfold merchantKeysPattern
  exact merchant_sandwich_head _

/-- Every hash-index KV key starts with `h`. -/
theorem hashKeyPattern_head (h : String) :
    (hashKeyPattern h).data.head? = some 'h' := rfl

/-- Every id-index KV key starts with `k`. -/
theorem keyIdPattern_head (i : String) :
    (keyIdPattern i).data.head? = some 'k' := rfl

/-- The three index families occupy disjoint KV key spaces. -/
theorem merchant_ne_hash (m : Option String) (h : String) :
    merchantKeysPattern m ≠ hashKeyPattern h := by
  intro contra
  have heads : (merchantKeysPattern m).data.head? = (hashKeyPattern h).data.head? := by
    rw [contra]
  rw [merchantKeysPattern_head, hashKeyPattern_head] at heads
  simp at heads

/-- Merchant-list keys never collide with id-index keys. -/
theorem merchant_ne_key (m : Option String) (i : String) :
    merchantKeysPattern m ≠ keyIdPattern i := by
  intro contra
  have heads : (merchantKeysPattern m).data.head? = (keyIdPattern i).data.head? := by
    rw [contra]
  rw [merchantKeysPattern_head, keyIdPattern_head] at heads
  simp at heads

/-- Hash-index keys never collide with id-index keys. -/
theorem hash_ne_key (h : String) (i : String) :
    hashKeyPattern h ≠ keyIdPattern i := by
  intro contra
  have heads : (hashKeyPattern h).data.head? = (keyIdPattern i).data.head? := by
    rw [contra]
  rw [hashKeyPattern_head, keyIdPattern_head] at heads
  simp at heads

end KeyStore

open KeyRotator KeyStore

/-- C1: `isSigningKeyValid` decides in order: destroyed → invalid with
status `destroyed` and `remainingMs = 0`; else deprecated → valid exactly
while `now < deprecatedAt + overlapMs`, with `remainingMs` the time left
in the window, and invalid with reason "Overlap period has ended" once
the window has elapsed; else active → always valid, with a
rotation-overdue advisory reason when `now ≥ expiresAt` and
`remainingMs = expiresAt - now` when `now < expiresAt`. -/
theorem C1_validity_decision (k : SigningKey) (now : Nat) :
    (k.destroyedAt.isSome = true →
      isSigningKeyValid k now =
        { valid := false, status := "destroyed"
          reason := some "Key has been destroyed", remainingMs := some 0 })
    ∧ (∀ d, k.destroyedAt = none → k.deprecatedAt = some d →
        ((isSigningKeyValid k now).valid = true ↔ now < d + k.rotationPolicy.overlapMs)
        ∧ (now < d + k.rotationPolicy.overlapMs →
            (isSigningKeyValid k now).remainingMs
              = some (d + k.rotationPolicy.overlapMs - now))
        ∧ (d + k.rotationPolicy.overlapMs ≤ now →
            isSigningKeyValid k now =
              { valid := false, status := "destroyed"
                reason := some "Overlap period has ended", remainingMs := some 0 }))
    ∧ (k.destroyedAt = none → k.deprecatedAt = none →
        (isSigningKeyValid k now).valid = true
        ∧ (k.expiresAt ≤ now →
            (isSigningKeyValid k now).reason
              = some ("Key past TTL by " ++ formatDuration (now - k.expiresAt)
                  ++ " - rotation recommended"))
        ∧ (now < k.expiresAt →
            (isSigningKeyValid k now).remainingMs = some (k.expiresAt - now)
            ∧ (isSigningKeyValid k now).reason = none)) := by
  refine ⟨?_, ?_, ?_⟩
  · intro h
    unfold isSigningKeyValid
    rw [if_pos h]
  · intro d hdes hdep
    unfold isSigningKeyValid
    simp only [hdes, hdep, Option.isSome_none, Bool.false_eq_true, if_false]
    by_cases hc : now ≥ d + k.rotationPolicy.overlapMs
    · rw [if_pos hc]
      refine ⟨by simpa using by omega, by omega, fun _ => rfl⟩
    · rw [if_neg hc]
      exact ⟨by simpa using by omega, fun _ => rfl, by omega⟩
  · intro hdes hdep
    unfold isSigningKeyValid
    simp only [hdes, hdep, Option.isSome_none, Bool.false_eq_true, if_false]
    by_cases hc : now ≥ k.expiresAt
    · rw [if_pos hc]
      exact ⟨rfl, fun _ => rfl, by omega⟩
    · rw [if_neg hc]
      exact ⟨rfl, by omega, fun _ => ⟨rfl, rfl⟩⟩

/-- Witness for C1 at a concrete deprecated record and timestamp. -/
theorem C1_validity_decision_witness :
    (isSigningKeyValid
      ⟨"k", "h", 0, 10, some 5, none, ⟨10, 20⟩, ⟨none, "live", "system"⟩⟩ 7).valid = true :=
  ((C1_validity_decision
      ⟨"k", "h", 0, 10, some 5, none, ⟨10, 20⟩, ⟨none, "live", "system"⟩⟩ 7).2.1
    5 rfl rfl).1.mpr (by decide)

/-- C4 counterexample: on a record with both `deprecatedAt` and
`destroyedAt` set, `deprecateSigningKey` checks `deprecatedAt` first and
fails with `alreadyDeprecated`, not `alreadyDestroyed` as the claim
requires for every record with `destroyedAt` set. -/
theorem C4_counterexample :
    ((⟨"k", "h", 0, 10, some 5, some 6, ⟨10, 20⟩,
        ⟨none, "live", "system"⟩⟩ : SigningKey).destroyedAt.isSome = true)
    ∧ deprecateSigningKey
        ⟨"k", "h", 0, 10, some 5, some 6, ⟨10, 20⟩, ⟨none, "live", "system"⟩⟩ 7
      = Except.error KeyErr.alreadyDeprecated
    ∧ KeyErr.alreadyDeprecated ≠ KeyErr.alreadyDestroyed := by
  refine ⟨rfl, rfl, by decide⟩

/-- C4 (amended): `deprecateSigningKey` sets `deprecatedAt = now` only on
an active record; it fails with `alreadyDeprecated` whenever
`deprecatedAt` is set (this check takes precedence, even when
`destroyedAt` is also set), and fails with `alreadyDestroyed` when
`destroyedAt` is set and `deprecatedAt` is not. -/
theorem C4_deprecate_preconditions (k : SigningKey) (now : Nat) :
    (k.deprecatedAt = none → k.destroyedAt = none →
      deprecateSigningKey k now = .ok { k with deprecatedAt := some now })
    ∧ (k.deprecatedAt.isSome = true →
      deprecateSigningKey k now = .error .alreadyDeprecated)
    ∧ (k.deprecatedAt = none → k.destroyedAt.isSome = true →
      deprecateSigningKey k now = .error .alreadyDestroyed) := by
  unfold deprecateSigningKey
  refine ⟨fun h1 h2 => ?_, fun h => ?_, fun h1 h2 => ?_⟩
  · rw [h1, h2]; rfl
  · rw [if_pos h]
  · rw [h1]
    simp only [Option.isSome_none, Bool.false_eq_true, if_false]
    rw [if_pos h2]

/-- Witness for C4 (amended) at a concrete active record. -/
theorem C4_deprecate_preconditions_witness :
    deprecateSigningKey
      ⟨"k", "h", 0, 10, none, none, ⟨10, 20⟩, ⟨none, "live", "system"⟩⟩ 4
      = .ok ⟨"k", "h", 0, 10, some 4, none, ⟨10, 20⟩, ⟨none, "live", "system"⟩⟩ :=
  (C4_deprecate_preconditions
    ⟨"k", "h", 0, 10, none, none, ⟨10, 20⟩, ⟨none, "live", "system"⟩⟩ 4).1 rfl rfl

/-- C5: `destroySigningKey` is idempotent — destroying an already
destroyed record (at any later instant) returns it unchanged, so
`destroy(destroy(r)) = destroy(r)`. -/
theorem C5_destroy_idempotent (k : SigningKey) (n1 n2 : Nat) :
    destroySigningKey (destroySigningKey k n1) n2 = destroySigningKey k n1
    ∧ (k.destroyedAt.isSome = true → destroySigningKey k n1 = k) := by
  unfold destroySigningKey
  by_cases h : k.destroyedAt.isSome = true
  · rw [if_pos h, if_pos h]
    exact ⟨rfl, fun _ => rfl⟩
  · rw [if_neg h]
    refine ⟨rfl, fun hc => absurd hc h⟩

/-- Witness for C5 at a concrete destroyed record. -/
theorem C5_destroy_idempotent_witness :
    destroySigningKey
      ⟨"k", "h", 0, 10, some 3, some 4, ⟨10, 20⟩, ⟨none, "live", "system"⟩⟩ 9
      = ⟨"k", "h", 0, 10, some 3, some 4, ⟨10, 20⟩, ⟨none, "live", "system"⟩⟩ :=
  (C5_destroy_idempotent
    ⟨"k", "h", 0, 10, some 3, some 4, ⟨10, 20⟩, ⟨none, "live", "system"⟩⟩ 9 9).2 rfl

/-- C6: destroying a record (with the spec's data-model invariant that an
already destroyed record has `deprecatedAt ≤ destroyedAt`, and with
`deprecatedAt ≤ now` when set) yields both timestamps set with
`deprecatedAt ≤ destroyedAt`; when destruction happens from the active
state, `deprecatedAt` is backfilled to the destruction time. -/
theorem C6_destroy_ordering (k : SigningKey) (now : Nat)
    (hwf : ∀ dd, k.destroyedAt = some dd →
      ∃ d, k.deprecatedAt = some d ∧ d ≤ dd)
    (hdep : ∀ t, k.deprecatedAt = some t → t ≤ now) :
    ∃ d dd, (destroySigningKey k now).deprecatedAt = some d
      ∧ (destroySigningKey k now).destroyedAt = some dd
      ∧ d ≤ dd
      ∧ (k.destroyedAt = none → dd = now ∧ (k.deprecatedAt = none → d = now)) := by
  unfold destroySigningKey
  by_cases h : k.destroyedAt.isSome = true
  · rw [if_pos h]
    obtain ⟨dd, hd⟩ := Option.isSome_iff_exists.mp h
    obtain ⟨d, hdt, hle⟩ := hwf dd hd
    exact ⟨d, dd, hdt, hd, hle, fun hc => by rw [hc] at hd; cases hd⟩
  · rw [if_neg h]
    rcases ht : k.deprecatedAt with _ | t
    · exact ⟨now, now, rfl, rfl, le_refl now, fun _ => ⟨rfl, fun _ => rfl⟩⟩
    · exact ⟨t, now, rfl, rfl, hdep t ht,
        fun _ => ⟨rfl, fun hc => Option.noConfusion hc⟩⟩

/-- Witness for C6 at a concrete active record. -/
theorem C6_destroy_ordering_witness :
    ∃ d dd,
      (destroySigningKey
        ⟨"k", "h", 0, 10, none, none, ⟨10, 20⟩, ⟨none, "live", "system"⟩⟩ 7).deprecatedAt
          = some d
      ∧ (destroySigningKey
          ⟨"k", "h", 0, 10, none, none, ⟨10, 20⟩, ⟨none, "live", "system"⟩⟩ 7).destroyedAt
          = some dd
      ∧ d ≤ dd
      ∧ ((⟨"k", "h", 0, 10, none, none, ⟨10, 20⟩,
            ⟨none, "live", "system"⟩⟩ : SigningKey).destroyedAt = none →
          dd = 7 ∧ ((⟨"k", "h", 0, 10, none, none, ⟨10, 20⟩,
            ⟨none, "live", "system"⟩⟩ : SigningKey).deprecatedAt = none → d = 7)) :=
  C6_destroy_ordering
    ⟨"k", "h", 0, 10, none, none, ⟨10, 20⟩, ⟨none, "live", "system"⟩⟩ 7
    (fun _ h => by cases h) (fun _ h => by cases h)

/-- A successful `deprecateSigningKey` call just stamps `deprecatedAt`. -/
theorem deprecateSigningKey_ok (k : SigningKey) (now : Nat)
    (h1 : k.deprecatedAt = none) (h2 : k.destroyedAt = none) :
    deprecateSigningKey k now = .ok { k with deprecatedAt := some now } := by
  unfold deprecateSigningKey
  rw [h1, h2]
  rfl

/-- `deprecateSigningKey` only ever fails with its two lifecycle errors. -/
theorem deprecateSigningKey_error (k : SigningKey) (now : Nat) (e : KeyErr)
    (h : deprecateSigningKey k now = .error e) :
    e = .alreadyDeprecated ∨ e = .alreadyDestroyed := by
  unfold deprecateSigningKey at h
  split at h
  · injection h with h'
    exact Or.inl h'.symm
  · split at h
    · injection h with h'
      exact Or.inr h'.symm
    · exact Except.noConfusion h

/-- `generateKey` succeeds on lowercased-valid prefix and environment. -/
theorem generateKey_ok (p env r : String)
    (hp : VALID_PREFIXES.contains (jsToLowerCase p) = true)
    (he : VALID_ENVIRONMENTS.contains (jsToLowerCase env) = true) :
    generateKey p env r = .ok (jsToLowerCase p ++ "_" ++ jsToLowerCase env ++ "_" ++ r) := by
  simp only [generateKey]
  rw [if_neg (by simpa using hp), if_neg (by simpa using he)]

/-- `generateKey` only ever fails with its two validation errors. -/
theorem generateKey_error (p env r : String) (e : KeyErr)
    (h : generateKey p env r = .error e) :
    e = .invalidPrefix ∨ e = .invalidEnvironment := by
  simp only [generateKey] at h
  split at h
  · injection h with h'
    exact Or.inl h'.symm
  · split at h
    · injection h with h'
      exact Or.inr h'.symm
    · exact Except.noConfusion h

/-- `createSigningKey` succeeds when `createdBy` and the lowercased
prefix and environment are all in the enumerated sets. -/
theorem createSigningKey_ok (options : CreateOptions)
    (keyId hash randomPart : String) (now : Nat)
    (hcb : VALID_CREATED_BY.contains options.createdBy = true)
    (hp : VALID_PREFIXES.contains (jsToLowerCase options.pre) = true)
    (he : VALID_ENVIRONMENTS.contains (jsToLowerCase options.environment) = true) :
    createSigningKey options keyId hash randomPart now =
      .ok
        ({ keyId := keyId
           hash := hash
           createdAt := now
           expiresAt := now + options.ttlMs
           deprecatedAt := none
           destroyedAt := none
           rotationPolicy :=
            { ttlMs := options.ttlMs, overlapMs := clampOverlap options.overlapMs }
           metadata :=
            { merchantId := options.merchantId
              environment := options.environment
              createdBy := options.createdBy } },
         jsToLowerCase options.pre ++ "_" ++ jsToLowerCase options.environment ++ "_" ++ randomPart) := by
  simp only [createSigningKey]
  rw [if_neg (by simpa using hcb), generateKey_ok options.pre options.environment randomPart hp he]

/-- Every `createSigningKey` failure is an `InvalidArgument`-class error. -/
theorem createSigningKey_error_isInvalidArgument (options : CreateOptions)
    (keyId hash randomPart : String) (now : Nat) (e : KeyErr)
    (h : createSigningKey options keyId hash randomPart now = .error e) :
    e.isInvalidArgument = true := by
  unfold createSigningKey at h
  split at h
  · injection h with h'
    rw [← h']
    rfl
  · split at h
    · next e2 heq =>
      injection h with h'
      rcases generateKey_error _ _ _ e2 heq with h2 | h2 <;> rw [← h', h2] <;> rfl
    · exact Except.noConfusion h

/-- C10: for a deprecated, non-destroyed record whose overlap window has
elapsed, `isSigningKeyValid` reports status `destroyed` although
`destroyedAt` is null, while `getSigningKeyStatus` reports `deprecated`
for the very same record: the two status views diverge. -/
theorem C10_status_divergence (k : SigningKey) (d : Nat) (now : Nat)
    (hdep : k.deprecatedAt = some d) (hdes : k.destroyedAt = none)
    (helapsed : d + k.rotationPolicy.overlapMs ≤ now) :
    (isSigningKeyValid k now).status = "destroyed"
    ∧ k.destroyedAt = none
    ∧ getSigningKeyStatus k = "deprecated" := by
  refine ⟨?_, hdes, ?_⟩
  · unfold isSigningKeyValid
    simp only [hdes, hdep, Option.isSome_none, Bool.false_eq_true, if_false]
    rw [if_pos helapsed]
  · unfold getSigningKeyStatus
    rw [hdes, hdep]
    rfl

/-- Witness for C10 at a concrete deprecated record past its window. -/
theorem C10_status_divergence_witness :
    (isSigningKeyValid
      ⟨"k", "h", 0, 10, some 5, none, ⟨10, 20⟩, ⟨none, "live", "system"⟩⟩ 25).status
        = "destroyed"
    ∧ (⟨"k", "h", 0, 10, some 5, none, ⟨10, 20⟩,
        ⟨none, "live", "system"⟩⟩ : SigningKey).destroyedAt = none
    ∧ getSigningKeyStatus
        ⟨"k", "h", 0, 10, some 5, none, ⟨10, 20⟩, ⟨none, "live", "system"⟩⟩
        = "deprecated" :=
  C10_status_divergence
    ⟨"k", "h", 0, 10, some 5, none, ⟨10, 20⟩, ⟨none, "live", "system"⟩⟩ 5 25
    rfl rfl (by decide)

/-- C2 counterexample: creating with `ttlMs=1000, overlapMs=500` clamps
the overlap to `MIN_OVERLAP_MS = 300000` ms, so after deprecating at
`createdAt+1500` the key is still valid 501 ms later, where the claim
requires `valid=false`. -/
theorem C2_counterexample :
    createSigningKey { ttlMs := 1000, overlapMs := 500 } "k1" "h1" "r" 0
      = .ok
          (⟨"k1", "h1", 0, 1000, none, none, ⟨1000, 300000⟩,
            ⟨none, "live", "system"⟩⟩, "sk_live_r")
    ∧ deprecateSigningKey
        ⟨"k1", "h1", 0, 1000, none, none, ⟨1000, 300000⟩,
          ⟨none, "live", "system"⟩⟩ 1500
      = .ok ⟨"k1", "h1", 0, 1000, some 1500, none, ⟨1000, 300000⟩,
          ⟨none, "live", "system"⟩⟩
    ∧ (isSigningKeyValid
        ⟨"k1", "h1", 0, 1000, some 1500, none, ⟨1000, 300000⟩,
          ⟨none, "live", "system"⟩⟩ 2001).valid = true :=
  ⟨rfl, rfl, rfl⟩

/-- C2 (amended): with `ttlMs=1000, overlapMs=500` the overlap is clamped
to 300000 ms at creation; at `now=createdAt+1500` the key is valid,
active and flagged rotation-overdue; after deprecating at that instant,
501 ms later the key is still valid (inside the clamped window), and
validity becomes false with reason "Overlap period has ended" once
`now ≥ deprecatedAt + 300000`, e.g. at `createdAt+301500`. -/
theorem C2_amended_scenario :
    createSigningKey { ttlMs := 1000, overlapMs := 500 } "k1" "h1" "r" 0
      = .ok
          (⟨"k1", "h1", 0, 1000, none, none, ⟨1000, 300000⟩,
            ⟨none, "live", "system"⟩⟩, "sk_live_r")
    ∧ (isSigningKeyValid
        ⟨"k1", "h1", 0, 1000, none, none, ⟨1000, 300000⟩,
          ⟨none, "live", "system"⟩⟩ 1500).valid = true
    ∧ (isSigningKeyValid
        ⟨"k1", "h1", 0, 1000, none, none, ⟨1000, 300000⟩,
          ⟨none, "live", "system"⟩⟩ 1500).status = "active"
    ∧ (isSigningKeyValid
        ⟨"k1", "h1", 0, 1000, none, none, ⟨1000, 300000⟩,
          ⟨none, "live", "system"⟩⟩ 1500).reason
        = some "Key past TTL by 1s - rotation recommended"
    ∧ deprecateSigningKey
        ⟨"k1", "h1", 0, 1000, none, none, ⟨1000, 300000⟩,
          ⟨none, "live", "system"⟩⟩ 1500
      = .ok ⟨"k1", "h1", 0, 1000, some 1500, none, ⟨1000, 300000⟩,
          ⟨none, "live", "system"⟩⟩
    ∧ (isSigningKeyValid
        ⟨"k1", "h1", 0, 1000, some 1500, none, ⟨1000, 300000⟩,
          ⟨none, "live", "system"⟩⟩ 2001).valid = true
    ∧ isSigningKeyValid
        ⟨"k1", "h1", 0, 1000, some 1500, none, ⟨1000, 300000⟩,
          ⟨none, "live", "system"⟩⟩ 301500
      = { valid := false, status := "destroyed"
          reason := some "Overlap period has ended", remainingMs := some 0 } :=
  ⟨rfl, rfl, rfl, rfl, rfl, rfl, rfl⟩

/-- C7 counterexample: `environment = "LIVE"` lies outside the enumerated
set, yet `createSigningKey` succeeds because validation happens on the
`toLowerCase()` form — and the metadata stores the original string. -/
theorem C7_counterexample :
    VALID_ENVIRONMENTS.contains "LIVE" = false
    ∧ createSigningKey { environment := "LIVE" } "k" "h" "r" 0
        = .ok
            (⟨"k", "h", 0, 2592000000, none, none, ⟨2592000000, 86400000⟩,
              ⟨none, "LIVE", "system"⟩⟩, "sk_live_r") :=
  ⟨rfl, rfl⟩

/-- C7 (amended): `createSigningKey` fails with an `InvalidArgument`
error whenever `createdBy` is outside its enumerated set or the
lowercased environment is outside its enumerated set; when `createdBy`
and the lowercased prefix and environment are all valid, it succeeds and
the returned record's metadata carries the given environment and
createdBy verbatim. -/
theorem C7_create_validation (options : CreateOptions)
    (keyId hash randomPart : String) (now : Nat) :
    ((VALID_CREATED_BY.contains options.createdBy = false
        ∨ VALID_ENVIRONMENTS.contains (jsToLowerCase options.environment) = false) →
      ∃ e, createSigningKey options keyId hash randomPart now = .error e
        ∧ e.isInvalidArgument = true)
    ∧ (VALID_CREATED_BY.contains options.createdBy = true →
       VALID_PREFIXES.contains (jsToLowerCase options.pre) = true →
       VALID_ENVIRONMENTS.contains (jsToLowerCase options.environment) = true →
      ∃ signingKey plaintextKey,
        createSigningKey options keyId hash randomPart now
          = .ok (signingKey, plaintextKey)
        ∧ signingKey.metadata.environment = options.environment
        ∧ signingKey.metadata.createdBy = options.createdBy
        ∧ signingKey.metadata.merchantId = options.merchantId) := by
  constructor
  · intro hbad
    rcases hres : createSigningKey options keyId hash randomPart now with e | v
    · exact ⟨e, rfl, createSigningKey_error_isInvalidArgument _ _ _ _ _ _ hres⟩
    · exfalso
      unfold createSigningKey at hres
      rcases hbad with hcb | henv
      · rw [if_pos (by simpa using hcb)] at hres
        exact Except.noConfusion hres
      · split at hres
        · exact Except.noConfusion hres
        · split at hres
          · exact Except.noConfusion hres
          · next p heq =>
            simp only [generateKey] at heq
            split at heq
            · exact Except.noConfusion heq
            · split at heq
              · exact Except.noConfusion heq
              · next hc1 hc2 =>
                rw [henv] at hc2
                exact hc2 (by simp)
  · intro hcb hp he
    exact ⟨_, _, createSigningKey_ok options keyId hash randomPart now hcb hp he,
      rfl, rfl, rfl⟩

/-- Witness for C7 (amended): a valid creation carries its metadata. -/
theorem C7_create_validation_witness :
    ∃ signingKey plaintextKey,
      createSigningKey { environment := "test", createdBy := "user" } "k" "h" "r" 5
        = .ok (signingKey, plaintextKey)
      ∧ signingKey.metadata.environment = "test"
      ∧ signingKey.metadata.createdBy = "user"
      ∧ signingKey.metadata.merchantId = none :=
  (C7_create_validation { environment := "test", createdBy := "user" }
    "k" "h" "r" 5).2 (by decide) (by decide) (by decide)

/-- C3: rotating a non-destroyed record never fails with
`cannotRotateDestroyed`; with no overrides, a fresh generated keyId, an
environment in the enumerated set (a data-model invariant) and an
overlap inside the clamp range (likewise), rotation succeeds: the old
record is the input passed through unchanged when already deprecated and
freshly deprecated otherwise, the new record is active with a different
keyId, inherits the environment, merchantId, ttlMs and overlapMs, and
its createdBy is `auto-rotation`. -/
theorem C3_rotate_contract (k : SigningKey) (hnd : k.destroyedAt = none) :
    (∀ options newKeyId newHash newRandom now,
      rotateSigningKey k options newKeyId newHash newRandom now
        ≠ .error .cannotRotateDestroyed)
    ∧ (∀ newKeyId newHash newRandom now,
        newKeyId ≠ k.keyId →
        VALID_ENVIRONMENTS.contains (jsToLowerCase k.metadata.environment) = true →
        MIN_OVERLAP_MS ≤ k.rotationPolicy.overlapMs →
        k.rotationPolicy.overlapMs ≤ MAX_OVERLAP_MS →
        ∃ oldKey newKey plaintextKey,
          rotateSigningKey k {} newKeyId newHash newRandom now
            = .ok ((oldKey, newKey), plaintextKey)
          ∧ (k.deprecatedAt.isSome = true → oldKey = k)
          ∧ (k.deprecatedAt = none → oldKey = { k with deprecatedAt := some now })
          ∧ oldKey.deprecatedAt.isSome = true
          ∧ newKey.deprecatedAt = none
          ∧ newKey.keyId ≠ oldKey.keyId
          ∧ newKey.metadata.environment = k.metadata.environment
          ∧ newKey.metadata.merchantId = k.metadata.merchantId
          ∧ newKey.rotationPolicy.ttlMs = k.rotationPolicy.ttlMs
          ∧ newKey.rotationPolicy.overlapMs = k.rotationPolicy.overlapMs
          ∧ newKey.metadata.createdBy = "auto-rotation") := by
  constructor
  · intro options newKeyId newHash newRandom now hcontra
    unfold rotateSigningKey at hcontra
    rw [if_neg (by simp [hnd])] at hcontra
    split at hcontra
    · next e heq =>
      injection hcontra with h'
      subst h'
      by_cases hdp : k.deprecatedAt.isSome = true
      · rw [if_pos hdp] at heq
        exact Except.noConfusion heq
      · rw [if_neg hdp] at heq
        rcases deprecateSigningKey_error k now _ heq with h | h <;> cases h
    · next oldKey heq =>
      split at hcontra
      · next e2 heq2 =>
        injection hcontra with h'
        subst h'
        have hbad := createSigningKey_error_isInvalidArgument _ _ _ _ _ _ heq2
        exact Bool.noConfusion hbad
      · exact Except.noConfusion hcontra
  · intro newKeyId newHash newRandom now hne henv hov1 hov2
    by_cases hdp : k.deprecatedAt.isSome = true
    · refine ⟨k,
        { keyId := newKeyId, hash := newHash, createdAt := now
          expiresAt := now + k.rotationPolicy.ttlMs
          deprecatedAt := none, destroyedAt := none
          rotationPolicy :=
            { ttlMs := k.rotationPolicy.ttlMs
              overlapMs := clampOverlap k.rotationPolicy.overlapMs }
          metadata :=
            { merchantId := k.metadata.merchantId
              environment := k.metadata.environment
              createdBy := "auto-rotation" } },
        jsToLowerCase "sk" ++ "_" ++ jsToLowerCase k.metadata.environment
          ++ "_" ++ newRandom,
        ?_, fun _ => rfl, fun hc => absurd hdp (by simp [hc]), hdp, rfl, hne,
        rfl, rfl, rfl, clampOverlap_eq_self _ hov1 hov2, rfl⟩
      unfold rotateSigningKey
      rw [if_neg (by simp [hnd]), if_pos hdp,
        createSigningKey_ok
          { environment :=
              orFalsyS (RotateOptions.mk none none none none none).environment
                k.metadata.environment
            merchantId :=
              orNullish (RotateOptions.mk none none none none none).merchantId
                k.metadata.merchantId
            createdBy :=
              orFalsyS (RotateOptions.mk none none none none none).createdBy
                "auto-rotation"
            ttlMs :=
              orFalsyN (RotateOptions.mk none none none none none).ttlMs
                k.rotationPolicy.ttlMs
            overlapMs :=
              orFalsyN (RotateOptions.mk none none none none none).overlapMs
                k.rotationPolicy.overlapMs }
          newKeyId newHash newRandom now rfl rfl henv]
      rfl
    · have hdep : k.deprecatedAt = none :=
        Option.not_isSome_iff_eq_none.mp (by simpa using hdp)
      refine ⟨{ k with deprecatedAt := some now },
        { keyId := newKeyId, hash := newHash, createdAt := now
          expiresAt := now + k.rotationPolicy.ttlMs
          deprecatedAt := none, destroyedAt := none
          rotationPolicy :=
            { ttlMs := k.rotationPolicy.ttlMs
              overlapMs := clampOverlap k.rotationPolicy.overlapMs }
          metadata :=
            { merchantId := k.metadata.merchantId
              environment := k.metadata.environment
              createdBy := "auto-rotation" } },
        jsToLowerCase "sk" ++ "_" ++ jsToLowerCase k.metadata.environment
          ++ "_" ++ newRandom,
        ?_, fun hc => absurd hc hdp, fun _ => rfl, rfl, rfl, hne,
        rfl, rfl, rfl, clampOverlap_eq_self _ hov1 hov2, rfl⟩
      unfold rotateSigningKey
      rw [if_neg (by simp [hnd]), if_neg hdp,
        deprecateSigningKey_ok k now hdep hnd,
        createSigningKey_ok
          { environment :=
              orFalsyS (RotateOptions.mk none none none none none).environment
                k.metadata.environment
            merchantId :=
              orNullish (RotateOptions.mk none none none none none).merchantId
                k.metadata.merchantId
            createdBy :=
              orFalsyS (RotateOptions.mk none none none none none).createdBy
                "auto-rotation"
            ttlMs :=
              orFalsyN (RotateOptions.mk none none none none none).ttlMs
                k.rotationPolicy.ttlMs
            overlapMs :=
              orFalsyN (RotateOptions.mk none none none none none).overlapMs
                k.rotationPolicy.overlapMs }
          newKeyId newHash newRandom now rfl rfl henv]
      rfl

/-- Witness for C3 at a concrete active record. -/
theorem C3_rotate_contract_witness :
    ∃ oldKey newKey plaintextKey,
      rotateSigningKey
        ⟨"old", "oh", 0, 10, none, none, ⟨10, 300000⟩,
          ⟨some "m", "live", "system"⟩⟩ {} "new" "nh" "nr" 50
        = .ok ((oldKey, newKey), plaintextKey)
      ∧ newKey.metadata.createdBy = "auto-rotation" := by
  obtain ⟨o, n, p, heq, _, _, _, _, _, _, _, _, _, hcb⟩ :=
    (C3_rotate_contract
      ⟨"old", "oh", 0, 10, none, none, ⟨10, 300000⟩,
        ⟨some "m", "live", "system"⟩⟩ rfl).2 "new" "nh" "nr" 50
      (by decide) (by decide) (by decide) (by decide)
  exact ⟨o, n, p, heq, hcb⟩

/-- C8: every store operation on a missing KV namespace fails with
`storeUnavailable` (`validateKey` reports the missing namespace through a
failed result with a configuration error message instead of throwing);
hash and id lookups on an absent key return null rather than an error,
delete on an absent keyId returns false, and validating a plaintext that
was never stored yields `valid = false` and `found = false`. -/
theorem C8_failure_semantics :
    (∀ sk, storeKey none sk = .error .storeUnavailable)
    ∧ (∀ sk, updateKey none sk = .error .storeUnavailable)
    ∧ (∀ h, lookupByHash none h = .error .storeUnavailable)
    ∧ (∀ i, lookupByKeyId none i = .error .storeUnavailable)
    ∧ (∀ hashFn p, lookupByPlaintext none hashFn p = .error .storeUnavailable)
    ∧ (∀ i, deleteKey none i = .error .storeUnavailable)
    ∧ (∀ m, listMerchantKeyIds none m = .error .storeUnavailable)
    ∧ (∀ m, listMerchantKeys none m = .error .storeUnavailable)
    ∧ (∀ hashFn p now, (validateKey none hashFn p now).valid = false
        ∧ (validateKey none hashFn p now).error = some "KV namespace not configured")
    ∧ (∀ store h, kvGet store (hashKeyPattern h) = none →
        lookupByHash (some store) h = .ok none)
    ∧ (∀ store i, kvGet store (keyIdPattern i) = none →
        lookupByKeyId (some store) i = .ok none)
    ∧ (∀ store i, lookupByKeyIdPure store i = none →
        deleteKey (some store) i = .ok (store, false))
    ∧ (∀ store hashFn p now, p ≠ "" →
        lookupByPlaintextPure store hashFn p = none →
        (validateKey (some store) hashFn p now).valid = false
        ∧ (validateKey (some store) hashFn p now).found = some false
        ∧ (validateKey (some store) hashFn p now).error = some "Key not found") := by
  refine ⟨fun _ => rfl, fun _ => rfl, fun _ => rfl, fun _ => rfl, fun _ _ => rfl,
    fun _ => rfl, fun _ => rfl, fun _ => rfl, fun _ _ _ => ⟨rfl, rfl⟩,
    ?_, ?_, ?_, ?_⟩
  · intro store h hget
    simp only [lookupByHash]
    by_cases hh : h = ""
    · rw [if_pos hh]
    · rw [if_neg hh]
      unfold lookupByHashPure
      rw [hget]
  · intro store i hget
    simp only [lookupByKeyId]
    by_cases hi : i = ""
    · rw [if_pos hi]
    · rw [if_neg hi]
      unfold lookupByKeyIdPure
      rw [hget]
  · intro store i hlook
    simp only [deleteKey]
    by_cases hi : i = ""
    · rw [if_pos hi]
    · rw [if_neg hi, hlook]
  · intro store hashFn p now hp hmiss
    have hv : validateKey (some store) hashFn p now
        = { valid := false, error := some "Key not found", found := some false } := by
      simp only [validateKey]
      rw [if_neg hp, hmiss]
    rw [hv]
    exact ⟨rfl, rfl, rfl⟩

/-- Witness for C8 at a concrete empty store and unknown plaintext. -/
theorem C8_failure_semantics_witness :
    (validateKey (some kvEmpty) (fun _ => "H") "x" 0).valid = false
    ∧ (validateKey (some kvEmpty) (fun _ => "H") "x" 0).found = some false
    ∧ (validateKey (some kvEmpty) (fun _ => "H") "x" 0).error = some "Key not found" :=
  C8_failure_semantics.2.2.2.2.2.2.2.2.2.2.2.2
    kvEmpty (fun _ => "H") "x" 0 (by decide) rfl

/-- C9: `deleteKey` looks the record up by id first and returns false
(store untouched) when it does not exist; on success it removes the hash
entry, the id entry and the keyId from its tenant list, deleting the
tenant list entirely when it becomes empty; and after storing two keys
for one tenant and deleting the first, `listMerchantKeys` returns
exactly the other. -/
theorem C9_delete_consistency :
    (∀ store i, lookupByKeyIdPure store i = none →
        deleteKey (some store) i = .ok (store, false))
    ∧ (∀ store i sk, i ≠ "" → lookupByKeyIdPure store i = some sk →
        ∃ newStore,
          deleteKey (some store) i = .ok (newStore, true)
          ∧ kvGet newStore (hashKeyPattern sk.hash) = none
          ∧ kvGet newStore (keyIdPattern i) = none
          ∧ kvGet newStore (merchantKeysPattern sk.metadata.merchantId)
              = (if ((getIdList store (merchantKeysPattern sk.metadata.merchantId)).filter
                      (fun id => id ≠ i)).length > 0
                 then some (.ids
                   ((getIdList store (merchantKeysPattern sk.metadata.merchantId)).filter
                      (fun id => id ≠ i)))
                 else none))
    ∧ (∃ st1 st2 st3,
        storeKey (some kvEmpty)
            ⟨"k1", "h1", 0, 10, none, none, ⟨10, 300000⟩,
              ⟨some "m", "live", "system"⟩⟩ = .ok st1
        ∧ storeKey (some st1)
            ⟨"k2", "h2", 0, 10, none, none, ⟨10, 300000⟩,
              ⟨some "m", "live", "system"⟩⟩ = .ok st2
        ∧ deleteKey (some st2) "k1" = .ok (st3, true)
        ∧ listMerchantKeys (some st3) (some "m")
            = .ok [⟨"k2", "h2", 0, 10, none, none, ⟨10, 300000⟩,
                ⟨some "m", "live", "system"⟩⟩]) := by
  refine ⟨?_, ?_, ?_⟩
  · intro store i hlook
    simp only [deleteKey]
    by_cases hi : i = ""
    · rw [if_pos hi]
    · rw [if_neg hi, hlook]
  · intro store i sk hi hlook
    have hred : deleteKey (some store) i
        = (if ((getIdList (kvDelete (kvDelete store (hashKeyPattern sk.hash)) (keyIdPattern i))
                (merchantKeysPattern sk.metadata.merchantId)).filter (fun id => id ≠ i)).length > 0
           then .ok (kvPut (kvDelete (kvDelete store (hashKeyPattern sk.hash)) (keyIdPattern i))
                  (merchantKeysPattern sk.metadata.merchantId)
                  (.ids ((getIdList (kvDelete (kvDelete store (hashKeyPattern sk.hash)) (keyIdPattern i))
                    (merchantKeysPattern sk.metadata.merchantId)).filter (fun id => id ≠ i))), true)
           else .ok (kvDelete (kvDelete (kvDelete store (hashKeyPattern sk.hash)) (keyIdPattern i))
                  (merchantKeysPattern sk.metadata.merchantId), true)) := by
      simp only [deleteKey]
      rw [if_neg hi, hlook]
    have hlist : getIdList (kvDelete (kvDelete store (hashKeyPattern sk.hash)) (keyIdPattern i))
        (merchantKeysPattern sk.metadata.merchantId)
        = getIdList store (merchantKeysPattern sk.metadata.merchantId) := by
      unfold getIdList
      rw [kvGet_delete_other _ _ _ (merchant_ne_key _ _),
        kvGet_delete_other _ _ _ (merchant_ne_hash _ _)]
    rw [hlist] at hred
    by_cases hnl : ((getIdList store (merchantKeysPattern sk.metadata.merchantId)).filter
        (fun id => id ≠ i)).length > 0
    · rw [if_pos hnl] at hred
      refine ⟨_, hred, ?_, ?_, ?_⟩
      · rw [kvGet_put_other _ _ _ _ (Ne.symm (merchant_ne_hash _ _)),
          kvGet_delete_other _ _ _ (hash_ne_key _ _), kvGet_delete_same]
      · rw [kvGet_put_other _ _ _ _ (Ne.symm (merchant_ne_key _ _)), kvGet_delete_same]
      · rw [kvGet_put_same, if_pos hnl]
    · rw [if_neg hnl] at hred
      refine ⟨_, hred, ?_, ?_, ?_⟩
      · rw [kvGet_delete_other _ _ _ (Ne.symm (merchant_ne_hash _ _)),
          kvGet_delete_other _ _ _ (hash_ne_key _ _), kvGet_delete_same]
      · rw [kvGet_delete_other _ _ _ (Ne.symm (merchant_ne_key _ _)), kvGet_delete_same]
      · rw [kvGet_delete_same, if_neg hnl]
  · exact ⟨_, _, _, rfl, rfl, rfl, rfl⟩

/-- Witness for C9: deleting a stored key removes its id-index entry. -/
theorem C9_delete_consistency_witness :
    ∃ newStore,
      deleteKey
        (some (kvPut (kvPut kvEmpty (hashKeyPattern "h1")
            (.record ⟨"k1", "h1", 0, 10, none, none, ⟨10, 300000⟩,
              ⟨some "m", "live", "system"⟩⟩))
          (keyIdPattern "k1")
          (.record ⟨"k1", "h1", 0, 10, none, none, ⟨10, 300000⟩,
            ⟨some "m", "live", "system"⟩⟩))) "k1"
        = .ok (newStore, true)
      ∧ kvGet newStore (hashKeyPattern "h1") = none
      ∧ kvGet newStore (keyIdPattern "k1") = none
      ∧ kvGet newStore (merchantKeysPattern (some "m"))
          = (if ((getIdList (kvPut (kvPut kvEmpty (hashKeyPattern "h1")
                  (.record ⟨"k1", "h1", 0, 10, none, none, ⟨10, 300000⟩,
                    ⟨some "m", "live", "system"⟩⟩))
                (keyIdPattern "k1")
                (.record ⟨"k1", "h1", 0, 10, none, none, ⟨10, 300000⟩,
                  ⟨some "m", "live", "system"⟩⟩))
                (merchantKeysPattern (some "m"))).filter (fun id => id ≠ "k1")).length > 0
             then some (.ids ((getIdList (kvPut (kvPut kvEmpty (hashKeyPattern "h1")
                  (.record ⟨"k1", "h1", 0, 10, none, none, ⟨10, 300000⟩,
                    ⟨some "m", "live", "system"⟩⟩))
                (keyIdPattern "k1")
                (.record ⟨"k1", "h1", 0, 10, none, none, ⟨10, 300000⟩,
                  ⟨some "m", "live", "system"⟩⟩))
                (merchantKeysPattern (some "m"))).filter (fun id => id ≠ "k1")))
             else none) :=
  C9_delete_consistency.2.1
    (kvPut (kvPut kvEmpty (hashKeyPattern "h1")
        (.record ⟨"k1", "h1", 0, 10, none, none, ⟨10, 300000⟩,
          ⟨some "m", "live", "system"⟩⟩))
      (keyIdPattern "k1")
      (.record ⟨"k1", "h1", 0, 10, none, none, ⟨10, 300000⟩,
        ⟨some "m", "live", "system"⟩⟩))
    "k1"
    ⟨"k1", "h1", 0, 10, none, none, ⟨10, 300000⟩, ⟨some "m", "live", "system"⟩⟩
    (by decide) rfl
